import Mathlib

/-!
Verification of the Moodify backend core: the mood-to-audio-feature mapper
(`config/moodMapper.js`), the OAuth callback and status logic
(`routes/auth.js`), and the recommendation route's authentication gate,
limit handling and search-and-aggregate fallback pipeline
(`routes/music.js`).

JavaScript strings are modelled as lists of Unicode code points
(`List Nat`); `toLowerCase` and `trim` are modelled on their ASCII
fragment, which is exact for every string the routes compare against.
Integer-valued JS numbers (query limits, epoch milliseconds) are `Int`;
the audio-feature constants, all exact decimal literals, are `ℚ`.
-/

/-- Code points of a string literal, the model of a JS string. -/
def str (s : String) : List Nat := s.toList.map Char.toNat

/-- One code point under JS `String.prototype.toLowerCase` (ASCII fragment). -/
def lowerChar (c : Nat) : Nat := if 65 ≤ c ∧ c ≤ 90 then c + 32 else c

/-- Whitespace recognised by JS `String.prototype.trim` (ASCII fragment:
space, tab, line feed, carriage return, vertical tab, form feed). -/
def isJsSpace (c : Nat) : Bool :=
  decide (c = 32 ∨ c = 9 ∨ c = 10 ∨ c = 13 ∨ c = 11 ∨ c = 12)

/-- JS `s.toLowerCase()`. -/
def jsToLower (s : List Nat) : List Nat := s.map lowerChar

/-- Removal of trailing whitespace (the tail half of JS `trim`). -/
def dropTrail (s : List Nat) : List Nat := (s.reverse.dropWhile isJsSpace).reverse

/-- JS `s.trim()`: strip leading and trailing whitespace. -/
def jsTrim (s : List Nat) : List Nat := dropTrail (s.dropWhile isJsSpace)

/-- One mood's audio-feature object from `moodMapper.js`.  Each JS object in
`moodMap` carries a subset of these keys; an absent key is `none`.  No key
beyond these fourteen occurs in the source (in particular no mood object has
bounds for danceability, acousticness or instrumentalness, and none has a
speechiness target). -/
structure MoodProfile where
  target_valence : Option ℚ := none
  target_energy : Option ℚ := none
  target_danceability : Option ℚ := none
  target_tempo : Option ℚ := none
  target_acousticness : Option ℚ := none
  target_instrumentalness : Option ℚ := none
  min_valence : Option ℚ := none
  min_energy : Option ℚ := none
  min_tempo : Option ℚ := none
  min_speechiness : Option ℚ := none
  max_valence : Option ℚ := none
  max_energy : Option ℚ := none
  max_tempo : Option ℚ := none
  max_speechiness : Option ℚ := none
deriving DecidableEq

/-- The `happy` object of `moodMap`. -/
def happyMood : MoodProfile :=
  { target_valence := some 0.8, target_energy := some 0.8,
    target_danceability := some 0.7,
    min_valence := some 0.6, min_energy := some 0.6,
    max_valence := some 1.0, max_energy := some 1.0 }

/-- The `sad` object of `moodMap`. -/
def sadMood : MoodProfile :=
  { target_valence := some 0.2, target_energy := some 0.3,
    target_danceability := some 0.3,
    min_valence := some 0.0, min_energy := some 0.0,
    max_valence := some 0.4, max_energy := some 0.5 }

/-- The `energetic` object of `moodMap`. -/
def energeticMood : MoodProfile :=
  { target_energy := some 0.9, target_valence := some 0.6,
    target_danceability := some 0.8, target_tempo := some 120,
    min_energy := some 0.7, min_tempo := some 100,
    max_energy := some 1.0 }

/-- The `relaxed` object of `moodMap`. -/
def relaxedMood : MoodProfile :=
  { target_valence := some 0.5, target_energy := some 0.3,
    target_tempo := some 80, target_acousticness := some 0.6,
    min_energy := some 0.0, max_energy := some 0.5, max_tempo := some 100 }

/-- The `focused` object of `moodMap`. -/
def focusedMood : MoodProfile :=
  { target_valence := some 0.4, target_energy := some 0.5,
    target_instrumentalness := some 0.7, target_acousticness := some 0.4,
    min_speechiness := some 0.0, max_speechiness := some 0.1 }

/-- The `romantic` object of `moodMap`. -/
def romanticMood : MoodProfile :=
  { target_valence := some 0.6, target_energy := some 0.4,
    target_acousticness := some 0.5, target_danceability := some 0.5,
    min_valence := some 0.4, max_energy := some 0.6 }

/-- The `moodMap` dictionary of `getMoodFeatures`, in source order. -/
def moodMap : List (List Nat × MoodProfile) :=
  [(str "happy", happyMood), (str "sad", sadMood),
   (str "energetic", energeticMood), (str "relaxed", relaxedMood),
   (str "focused", focusedMood), (str "romantic", romanticMood)]

/-- Function `getMoodFeatures` from `config/moodMapper.js`: normalize the input with
`mood.toLowerCase().trim()` and look it up in `moodMap`; an unsupported mood
throws, modelled as `none`. -/
def getMoodFeatures (mood : List Nat) : Option MoodProfile :=
  List.lookup (jsTrim (jsToLower mood)) moodMap

/-- Function `getSupportedMoods` from `config/moodMapper.js`: an independently
hard-coded list. -/
def getSupportedMoods : List (List Nat) :=
  [str "happy", str "sad", str "energetic", str "relaxed",
   str "focused", str "romantic"]

/-- Order `min ≤ target` / `target ≤ max` for one feature, vacuous when either
side is absent from the mood's object. -/
def pairLe : Option ℚ → Option ℚ → Prop
  | some x, some y => x ≤ y
  | _, _ => True

/-- Every feature of a profile that carries both a target and a bound in the
source (valence, energy and tempo are the only such features) satisfies
`min ≤ target` and `target ≤ max`, each conjunct vacuous when the key is
absent. -/
def profileBoundsOk (p : MoodProfile) : Prop :=
  pairLe p.min_valence p.target_valence ∧ pairLe p.target_valence p.max_valence ∧
  pairLe p.min_energy p.target_energy ∧ pairLe p.target_energy p.max_energy ∧
  pairLe p.min_tempo p.target_tempo ∧ pairLe p.target_tempo p.max_tempo

lemma lowerChar_idem (c : Nat) : lowerChar (lowerChar c) = lowerChar c := by
  unfold lowerChar
  split_ifs <;> omega

lemma isJsSpace_lowerChar (c : Nat) : isJsSpace (lowerChar c) = isJsSpace c := by
  unfold lowerChar isJsSpace
  split_ifs with h
  · rw [decide_eq_decide]
    omega
  · rfl

lemma isJsSpace_comp : isJsSpace ∘ lowerChar = isJsSpace :=
  funext isJsSpace_lowerChar

lemma jsToLower_idem (s : List Nat) : jsToLower (jsToLower s) = jsToLower s := by
  simp only [jsToLower, List.map_map]
  exact List.map_congr_left fun c _ => lowerChar_idem c

lemma dropWhile_jsToLower (s : List Nat) :
    (jsToLower s).dropWhile isJsSpace = jsToLower (s.dropWhile isJsSpace) := by
  simp only [jsToLower, List.dropWhile_map, isJsSpace_comp]

lemma dropTrail_jsToLower (s : List Nat) :
    dropTrail (jsToLower s) = jsToLower (dropTrail s) := by
  simp only [dropTrail, jsToLower, ← List.map_reverse, List.dropWhile_map,
    isJsSpace_comp]

lemma jsTrim_jsToLower (s : List Nat) :
    jsTrim (jsToLower s) = jsToLower (jsTrim s) := by
  unfold jsTrim
  rw [dropWhile_jsToLower, dropTrail_jsToLower]

lemma dropWhile_idem (p : Nat → Bool) (l : List Nat) :
    (l.dropWhile p).dropWhile p = l.dropWhile p := by
  induction l with
  | nil => rfl
  | cons a t ih =>
    by_cases h : p a
    · simp [List.dropWhile_cons, h, ih]
    · simp [List.dropWhile_cons, h]

lemma dropTrail_cons (a : Nat) (t : List Nat) :
    dropTrail (a :: t) =
      if isJsSpace a = true ∧ dropTrail t = [] then [] else a :: dropTrail t := by
  unfold dropTrail
  rw [List.reverse_cons, List.dropWhile_append]
  by_cases h : (t.reverse.dropWhile isJsSpace).isEmpty
  · have ht : t.reverse.dropWhile isJsSpace = [] := by simpa using h
    by_cases ha : isJsSpace a
    · simp [h, ht, ha, List.dropWhile_cons]
    · simp [h, ht, ha, List.dropWhile_cons]
  · have ht : t.reverse.dropWhile isJsSpace ≠ [] := by simpa using h
    simp [h, ht]

lemma dropTrail_dropWhile_comm (l : List Nat) :
    (dropTrail l).dropWhile isJsSpace = dropTrail (l.dropWhile isJsSpace) := by
  induction l with
  | nil => rfl
  | cons a t ih =>
    by_cases ha : isJsSpace a
    · rw [dropTrail_cons]
      by_cases he : dropTrail t = []
      · simp only [ha, he, and_self, if_true, List.dropWhile_nil]
        rw [List.dropWhile_cons, if_pos ha, ← ih, he, List.dropWhile_nil]
      · simp only [ha, he, and_false, if_false]
        rw [List.dropWhile_cons, if_pos ha, List.dropWhile_cons, if_pos ha, ih]
    · rw [dropTrail_cons]
      have : ¬ (isJsSpace a = true ∧ dropTrail t = []) := fun hc => ha hc.1
      rw [if_neg this, List.dropWhile_cons, if_neg ha, List.dropWhile_cons,
        if_neg ha, dropTrail_cons, if_neg this]

lemma dropTrail_idem (l : List Nat) : dropTrail (dropTrail l) = dropTrail l := by
  unfold dropTrail
  rw [List.reverse_reverse, dropWhile_idem]

lemma jsTrim_idem (l : List Nat) : jsTrim (jsTrim l) = jsTrim l := by
  unfold jsTrim
  rw [dropTrail_dropWhile_comm, dropWhile_idem, dropTrail_idem]

lemma normalize_stable (m : List Nat) :
    jsTrim (jsToLower (jsToLower (jsTrim m))) = jsTrim (jsToLower m) := by
  rw [jsToLower_idem, jsTrim_jsToLower, jsTrim_idem, ← jsTrim_jsToLower]

lemma lookup_isSome_iff {α β : Type} [BEq α] [LawfulBEq α]
    (l : List (α × β)) (k : α) :
    (List.lookup k l).isSome = true ↔ k ∈ l.map Prod.fst := by
  induction l with
  | nil => simp [List.lookup]
  | cons a t ih =>
    cases a with
    | mk x y =>
      by_cases h : k = x
      · subst h
        simp [List.lookup]
      · have hb : (k == x) = false := by simpa using h
        simp [List.lookup, hb, ih, h]

/-- C5: for each of the six canonical mood labels, the profile returned by
`getMoodFeatures` satisfies `min ≤ target` and `target ≤ max` for every
audio feature for which both a target and a bound are present. -/
theorem mood_profiles_bounds_consistent :
    ∀ m ∈ getSupportedMoods, ∃ p, getMoodFeatures m = some p ∧ profileBoundsOk p := by
  intro m hm
  simp only [getSupportedMoods, List.mem_cons, List.not_mem_nil, or_false] at hm
  rcases hm with h | h | h | h | h | h <;> subst h
  · exact ⟨happyMood, rfl, by norm_num [profileBoundsOk, pairLe, happyMood]⟩
  · exact ⟨sadMood, rfl, by norm_num [profileBoundsOk, pairLe, sadMood]⟩
  · exact ⟨energeticMood, rfl, by norm_num [profileBoundsOk, pairLe, energeticMood]⟩
  · exact ⟨relaxedMood, rfl, by norm_num [profileBoundsOk, pairLe, relaxedMood]⟩
  · exact ⟨focusedMood, rfl, by norm_num [profileBoundsOk, pairLe, focusedMood]⟩
  · exact ⟨romanticMood, rfl, by norm_num [profileBoundsOk, pairLe, romanticMood]⟩

/-- Witness for C5 at the concrete mood `happy`. -/
theorem mood_profiles_bounds_consistent_witness :
    str "happy" ∈ getSupportedMoods ∧
      ∃ p, getMoodFeatures (str "happy") = some p ∧ profileBoundsOk p :=
  ⟨by simp [getSupportedMoods],
   mood_profiles_bounds_consistent (str "happy") (by simp [getSupportedMoods])⟩

/-- C8: `getMoodFeatures` normalizes its input (lowercase, then trim) before
the lookup, so resolving any string gives the same result as resolving its
lowercased-and-trimmed form; in particular `"HAPPY "` and `"happy"` resolve
to identical profiles.  The function is a pure lookup, hence deterministic
and side-effect free by construction. -/
theorem getMoodFeatures_normalization :
    (∀ m, getMoodFeatures m = getMoodFeatures (jsToLower (jsTrim m))) ∧
    getMoodFeatures (str "HAPPY ") = getMoodFeatures (str "happy") := by
  constructor
  · intro m
    unfold getMoodFeatures
    rw [normalize_stable]
  · rfl

/-- C10: the hard-coded `getSupportedMoods` list and the key set of the
`moodMap` dictionary inside `getMoodFeatures` agree: resolution succeeds
exactly when the normalized input is one of the six supported moods. -/
theorem supportedMoods_match_moodMap :
    ∀ m, (getMoodFeatures m).isSome = true ↔ jsTrim (jsToLower m) ∈ getSupportedMoods := by
  intro m
  unfold getMoodFeatures
  rw [lookup_isSome_iff]
  rw [show moodMap.map Prod.fst = getSupportedMoods from rfl]

/-- JS `x || null` applied to an optional string: `undefined` and the empty
string (both falsy) collapse to `null`. -/
def jsOrNull : Option (List Nat) → Option (List Nat)
  | none => none
  | some l => if l.isEmpty then none else some l

/-- Outcome of one GET `/callback` invocation in `routes/auth.js`. -/
inductive CallbackOutcome where
  | stateMismatch
  | accessDenied
  | success
  | tokenExchangeFailed
deriving DecidableEq

/-- Observable result of the callback handler: the redirect taken and the
value left in `req.session.state`. -/
structure CallbackStep where
  outcome : CallbackOutcome
  sessionState : Option (List Nat)
deriving DecidableEq

/-- The GET `/callback` handler of `routes/auth.js` (`completeAuthorization`):
reads `code`/`state` from the query and the stored anti-forgery token from
the session (each via `x || null`), redirects with `state_mismatch` when the
state is absent or differs from the stored token — returning early, BEFORE
the line `req.session.state = null` — then clears the stored token, then
redirects with `access_denied` when the code is absent, and otherwise
performs the token exchange, whose network outcome is the `exchangeOk`
parameter (`invalid_token` redirect on failure). -/
def completeAuthorization (qCode qState sessState : Option (List Nat))
    (exchangeOk : Bool) : CallbackStep :=
  let code := jsOrNull qCode
  let state := jsOrNull qState
  let storedState := jsOrNull sessState
  if state = none ∨ state ≠ storedState then
    { outcome := .stateMismatch, sessionState := sessState }
  else if code = none then
    { outcome := .accessDenied, sessionState := none }
  else if exchangeOk then
    { outcome := .success, sessionState := none }
  else
    { outcome := .tokenExchangeFailed, sessionState := none }

/-- C4: a callback whose `state` is absent or differs from the stored token
fails with `state_mismatch` whatever the `code` is, and `access_denied`
occurs exactly when the state matches and the code is absent. -/
theorem callback_state_gate :
    ∀ qc qs ss ex,
      ((jsOrNull qs = none ∨ jsOrNull qs ≠ jsOrNull ss) →
        (completeAuthorization qc qs ss ex).outcome = CallbackOutcome.stateMismatch) ∧
      ((completeAuthorization qc qs ss ex).outcome = CallbackOutcome.accessDenied ↔
        (jsOrNull qs ≠ none ∧ jsOrNull qs = jsOrNull ss ∧ jsOrNull qc = none)) := by
  intro qc qs ss ex
  by_cases h : jsOrNull qs = none ∨ jsOrNull qs ≠ jsOrNull ss
  · refine ⟨fun _ => ?_, ?_⟩
    · unfold completeAuthorization
      rw [if_pos h]
    · unfold completeAuthorization
      rw [if_pos h]
      constructor
      · intro hc
        exact absurd hc (by simp)
      · rintro ⟨h1, h2, -⟩
        rcases h with h | h
        · exact absurd h h1
        · exact absurd h2 h
  · push_neg at h
    obtain ⟨h1, h2⟩ := h
    have hno : ¬ (jsOrNull qs = none ∨ jsOrNull qs ≠ jsOrNull ss) := by
      push_neg
      exact ⟨h1, h2⟩
    refine ⟨fun hc => ?_, ?_⟩
    · rcases hc with hc | hc
      · exact absurd hc h1
      · exact absurd h2 hc
    · unfold completeAuthorization
      rw [if_neg hno]
      by_cases hcode : jsOrNull qc = none
      · rw [if_pos hcode]
        exact ⟨fun _ => ⟨h1, h2, hcode⟩, fun _ => rfl⟩
      · rw [if_neg hcode]
        constructor
        · intro hc
          revert hc
          cases ex <;> simp
        · rintro ⟨-, -, h3⟩
          exact absurd h3 hcode

/-- Witness for C4: a callback with no `state` parameter is a mismatch. -/
theorem callback_state_gate_witness :
    (completeAuthorization (some (str "c")) none (some (str "s")) true).outcome =
      CallbackOutcome.stateMismatch :=
  (callback_state_gate (some (str "c")) none (some (str "s")) true).1 (Or.inl rfl)

/-- Counterexample to C1: a callback whose `state` ("a") mismatches the
stored token ("b") takes the early `state_mismatch` return, so the session's
anti-forgery token is NOT cleared — it is still "b" — and a second callback
presenting that surviving state then succeeds. -/
theorem callback_replay_counterexample :
    (completeAuthorization (some (str "c")) (some (str "a")) (some (str "b")) true).outcome =
      CallbackOutcome.stateMismatch ∧
    (completeAuthorization (some (str "c")) (some (str "a")) (some (str "b")) true).sessionState =
      some (str "b") ∧
    (completeAuthorization (some (str "c")) (some (str "b")) (some (str "b")) true).outcome =
      CallbackOutcome.success := by
  refine ⟨rfl, rfl, rfl⟩

lemma callback_on_cleared (qc qs : Option (List Nat)) (ex : Bool) :
    (completeAuthorization qc qs none ex).outcome = CallbackOutcome.stateMismatch := by
  unfold completeAuthorization
  have h : jsOrNull qs = none ∨ jsOrNull qs ≠ jsOrNull (none : Option (List Nat)) := by
    rcases Decidable.em (jsOrNull qs = none) with hq | hq
    · exact Or.inl hq
    · exact Or.inr fun hcon => hq (by simpa [jsOrNull] using hcon)
  rw [if_pos h]

/-- C1 (amended): the stored anti-forgery token is cleared on the success,
`access_denied` and `invalid_token` outcomes — so after any such completion
attempt a second callback always fails with `state_mismatch` — but on the
`state_mismatch` outcome the handler returns before `req.session.state =
null`, leaving the stored token in place. -/
theorem callback_state_clearing :
    ∀ qc qs ss ex,
      ((completeAuthorization qc qs ss ex).outcome = CallbackOutcome.stateMismatch →
        (completeAuthorization qc qs ss ex).sessionState = ss) ∧
      ((completeAuthorization qc qs ss ex).outcome ≠ CallbackOutcome.stateMismatch →
        (completeAuthorization qc qs ss ex).sessionState = none) ∧
      (∀ qc2 qs2 ex2,
        (completeAuthorization qc2 qs2
            ((completeAuthorization qc qs ss ex).sessionState) ex2).outcome =
          CallbackOutcome.success →
        (completeAuthorization qc qs ss ex).outcome = CallbackOutcome.stateMismatch) := by
  intro qc qs ss ex
  by_cases h : jsOrNull qs = none ∨ jsOrNull qs ≠ jsOrNull ss
  · refine ⟨fun _ => ?_, fun hne => ?_, fun qc2 qs2 ex2 _ => ?_⟩
    · unfold completeAuthorization
      rw [if_pos h]
    · exact absurd (by unfold completeAuthorization; rw [if_pos h]) hne
    · unfold completeAuthorization
      rw [if_pos h]
  · have hclear : (completeAuthorization qc qs ss ex).sessionState = none := by
      unfold completeAuthorization
      rw [if_neg h]
      by_cases hcode : jsOrNull qc = none
      · rw [if_pos hcode]
      · rw [if_neg hcode]
        cases ex <;> simp
    have houtcome : (completeAuthorization qc qs ss ex).outcome ≠
        CallbackOutcome.stateMismatch := by
      unfold completeAuthorization
      rw [if_neg h]
      by_cases hcode : jsOrNull qc = none
      · rw [if_pos hcode]
        simp
      · rw [if_neg hcode]
        cases ex <;> simp
    refine ⟨fun hc => absurd hc houtcome, fun _ => hclear, fun qc2 qs2 ex2 hsucc => ?_⟩
    rw [hclear, callback_on_cleared] at hsucc
    exact absurd hsucc (by simp)

/-- Witness for C1 (amended): a successful first callback clears the token,
and the follow-up callback replaying the same state mismatches. -/
theorem callback_state_clearing_witness :
    (completeAuthorization (some (str "c")) (some (str "b")) (some (str "b")) true).sessionState
      = none ∧
    (completeAuthorization (some (str "c")) (some (str "b"))
        ((completeAuthorization (some (str "c")) (some (str "b")) (some (str "b"))
          true).sessionState) true).outcome ≠ CallbackOutcome.success :=
  ⟨(callback_state_clearing (some (str "c")) (some (str "b")) (some (str "b")) true).2.1
      (by decide),
   fun hsucc =>
    absurd
      ((callback_state_clearing (some (str "c")) (some (str "b")) (some (str "b")) true).2.2
        (some (str "c")) (some (str "b")) true hsucc)
      (by decide)⟩

/-- The session fields read by the authentication checks in `routes/auth.js`
and `routes/music.js`; an absent field is `none`. -/
structure AuthSession where
  access_token : Option (List Nat)
  token_expires_at : Option Int
deriving DecidableEq

/-- JS truthiness of an optional string: `undefined` and `""` are falsy. -/
def truthyStr : Option (List Nat) → Bool
  | none => false
  | some l => !l.isEmpty

/-- JS `token_expires_at > now` (an absent field compares false). -/
def jsGtNow : Option Int → Int → Bool
  | none, _ => false
  | some e, now => decide (now < e)

/-- JS `token_expires_at <= now` (an absent field compares false). -/
def jsLeNow : Option Int → Int → Bool
  | none, _ => false
  | some e, now => decide (e ≤ now)

/-- The GET `/auth/status` check of `routes/auth.js`:
`!!(req.session.access_token && req.session.token_expires_at > Date.now())`. -/
def isAuthenticated (s : AuthSession) (now : Int) : Bool :=
  truthyStr s.access_token && jsGtNow s.token_expires_at now

/-- C9: the authorization check is true iff an access token is present (a
non-empty string) and `now` is strictly before `token_expires_at`; at the
boundary it is true at `expiresAt - 1` and false from `expiresAt` on. -/
theorem auth_status_boundary :
    (∀ s now, isAuthenticated s now = true ↔
      ((∃ t, s.access_token = some t ∧ t ≠ []) ∧
       (∃ e, s.token_expires_at = some e ∧ now < e))) ∧
    (∀ tok e, tok ≠ [] →
      isAuthenticated { access_token := some tok, token_expires_at := some e } (e - 1) = true) ∧
    (∀ tok e now, e ≤ now →
      isAuthenticated { access_token := some tok, token_expires_at := some e } now = false) := by
  refine ⟨fun s now => ?_, fun tok e htok => ?_, fun tok e now hle => ?_⟩
  · obtain ⟨tok, exp⟩ := s
    cases tok <;> cases exp <;>
      simp [isAuthenticated, truthyStr, jsGtNow, List.isEmpty_iff]
  · simp only [isAuthenticated, truthyStr, jsGtNow, Bool.and_eq_true,
      Bool.not_eq_true', List.isEmpty_eq_false, decide_eq_true_eq]
    exact ⟨by simpa using htok, by omega⟩
  · simp only [isAuthenticated, truthyStr, jsGtNow, Bool.and_eq_false_iff,
      decide_eq_false_iff_not]
    right
    omega

/-- Witness for C9 at token "t", expiry 5: authorized at 4, not at 5. -/
theorem auth_status_boundary_witness :
    isAuthenticated { access_token := some [116], token_expires_at := some (5 : Int) }
        ((5 : Int) - 1) = true ∧
    isAuthenticated { access_token := some [116], token_expires_at := some (5 : Int) }
        (5 : Int) = false :=
  ⟨auth_status_boundary.2.1 [116] 5 (by decide),
   auth_status_boundary.2.2 [116] 5 5 (by decide)⟩

/-- The `requireAuth` middleware of `routes/music.js` responds 401 iff
`!req.session.access_token || req.session.token_expires_at <= Date.now()`. -/
def requireAuthRejects (s : AuthSession) (now : Int) : Bool :=
  !truthyStr s.access_token || jsLeNow s.token_expires_at now

/-- The inline gate at the top of GET `/recommendations` in
`routes/music.js` responds 401 iff `!req.session.access_token` — it never
reads `token_expires_at`. -/
def recommendationsGateRejects (s : AuthSession) : Bool :=
  !truthyStr s.access_token

/-- C3 (code bug): a session holding an access token that is already expired
(`token_expires_at = 1000`, `now = 1000`) passes the `/recommendations`
gate, which checks presence only, even though `requireAuth` — which the
route's own doc comment claims protects it — rejects exactly that session;
an absent token is rejected by both. -/
theorem recommendations_gate_ignores_expiry :
    recommendationsGateRejects
        { access_token := some (str "tok"), token_expires_at := some 1000 } = false ∧
    requireAuthRejects
        { access_token := some (str "tok"), token_expires_at := some 1000 } 1000 = true ∧
    recommendationsGateRejects { access_token := none, token_expires_at := none } = true := by
  decide

/-- ASCII decimal digit. -/
def isDigitCode (c : Nat) : Bool := decide (48 ≤ c ∧ c ≤ 57)

/-- Value of a digit string read left to right. -/
def digitsToNat (ds : List Nat) : Nat := ds.foldl (fun acc c => acc * 10 + (c - 48)) 0

/-- JS `parseInt` on a decimal string: skip leading whitespace, take an
optional sign and then the longest prefix of digits; `NaN` (here `none`)
when no digit follows.  (The radix-autodetection of `0x` prefixes is not
exercised by the route and is not modelled.) -/
def jsParseInt (s : List Nat) : Option Int :=
  match s.dropWhile isJsSpace with
  | [] => none
  | c :: rest =>
    if c = 45 then
      match rest.takeWhile isDigitCode with
      | [] => none
      | ds => some (-(digitsToNat ds : Int))
    else if c = 43 then
      match rest.takeWhile isDigitCode with
      | [] => none
      | ds => some ((digitsToNat ds : Int))
    else
      match (c :: rest).takeWhile isDigitCode with
      | [] => none
      | ds => some ((digitsToNat ds : Int))

/-- The limit computation of GET `/recommendations` in `routes/music.js`:
`const { limit = 20 } = req.query` (so an absent parameter is the number 20)
followed by `Math.min(parseInt(limit) || 10, 50)` — `parseInt` yielding
`NaN` or `0`, both falsy, falls back to 10 before the upper cap of 50. -/
def effectiveLimit (limitQ : Option (List Nat)) : Int :=
  let parsed : Option Int :=
    match limitQ with
    | none => some 20
    | some s => jsParseInt s
  let chosen : Int :=
    match parsed with
    | none => 10
    | some v => if v = 0 then 10 else v
  min chosen 50

/-- Counterexample to C2: `limit=0` yields an effective limit of 10, not the
claimed default of 20 (`0` is falsy in JS, so `parseInt(limit) || 10`
replaces it with 10). -/
theorem limit_zero_counterexample :
    effectiveLimit (some (str "0")) = 10 ∧ (10 : Int) ≠ 20 := by
  decide

/-- C2 (amended): the requested limit is capped above at 50 with no lower
clamp; an absent limit defaults to 20; a non-numeric limit or `limit=0`
(any falsy `parseInt` result) falls back to 10; negative limits pass
through.  In particular `limit=1000` gives 50 and a missing limit gives
20, as claimed. -/
theorem limit_handling :
    effectiveLimit none = 20 ∧
    effectiveLimit (some (str "1000")) = 50 ∧
    effectiveLimit (some (str "0")) = 10 ∧
    effectiveLimit (some (str "abc")) = 10 ∧
    effectiveLimit (some (str "-5")) = -5 ∧
    (∀ q, effectiveLimit q ≤ 50) := by
  refine ⟨by decide, by decide, by decide, by decide, by decide, fun q => ?_⟩
  unfold effectiveLimit
  exact min_le_right _ _

/-- A track item as returned inside a playlist-tracks response; `item.track`
may be null (the surrounding `Option`) and its `id` may be missing or empty.
The remaining payload fields (name, artists, album, …) are carried through
untouched by the route and play no part in filtering, deduplication or
truncation, so they are not modelled. -/
structure RawTrack where
  id : Option (List Nat)
deriving DecidableEq

/-- A track kept by the route after the `item.track && item.track.id`
filter: its id is a non-empty string. -/
structure Track where
  id : List Nat
deriving DecidableEq

/-- A playlist item of the search response (`null` entries modelled by the
surrounding `Option`); the validity filter reads `id`, `name` and `owner`. -/
structure RawPlaylist where
  id : Option (List Nat)
  name : Option (List Nat)
  hasOwner : Bool
deriving DecidableEq

/-- The filter `playlist && playlist.id && playlist.name && playlist.owner`. -/
def validPlaylist : Option RawPlaylist → Bool
  | none => false
  | some p => truthyStr p.id && truthyStr p.name && p.hasOwner

/-- Slice `validPlaylists.slice(0, 3)`: the first three valid playlists. -/
def playlistsToCheck (searchItems : List (Option RawPlaylist)) : List RawPlaylist :=
  ((searchItems.filter validPlaylist).reduceOption).take 3

/-- The per-playlist extraction: `.filter(item => item.track && item.track.id)`
followed by the field-projecting `.map`, fused into one `filterMap`. -/
def extractTracks (items : List (Option RawTrack)) : List Track :=
  items.filterMap fun it =>
    match it with
    | none => none
    | some rt =>
      match rt.id with
      | none => none
      | some i => if i.isEmpty then none else some { id := i }

/-- The `for` loop accumulating `allPlaylistTracks`: each checked playlist
contributes its fetched tracks, or nothing when its fetch failed (the inner
`try`/`catch` skips the playlist). `fetched` is position-aligned with the
checked playlists. -/
def allPlaylistTracks (checked : List RawPlaylist)
    (fetched : List (Option (List (Option RawTrack)))) : List Track :=
  ((checked.zip fetched).map fun pf =>
    match pf.2 with
    | none => []
    | some items => extractTracks items).flatten

/-- Filter `uniqueTracks`: keep a track exactly when its index equals the first
index holding its id (`index === self.findIndex(t => t.id === track.id)`). -/
def uniqueTracks (l : List Track) : List Track :=
  (l.enum.filter fun p => p.1 == l.findIdx fun t => t.id == p.2.id).map Prod.snd

/-- The deduplicated pool the route shuffles and truncates. -/
def recommendationPool (searchItems : List (Option RawPlaylist))
    (fetched : List (Option (List (Option RawTrack)))) : List Track :=
  uniqueTracks (allPlaylistTracks (playlistsToCheck searchItems) fetched)

/-- Response of the search-and-aggregate fallback of GET `/recommendations`:
the two 404 branches, the catch-all upstream error path, or a 200 payload. -/
inductive RecResult where
  | noPlaylists
  | noTracks
  | upstreamError (status : Nat)
  | success (tracks : List Track)
deriving DecidableEq

/-- HTTP status attached to each outcome by the route. -/
def statusOf : RecResult → Nat
  | .noPlaylists => 404
  | .noTracks => 404
  | .upstreamError s => s
  | .success _ => 200

/-- JS `arr.slice(0, e)`: a negative end counts from the end of the array. -/
def jsSliceTo (l : List Track) (e : Int) : List Track :=
  if e < 0 then l.take ((l.length : Int) + e).toNat else l.take e.toNat

/-- Lines 221–307 of `routes/music.js`: 404 when no valid playlist was
found, 404 when the deduplicated pool is empty, otherwise 200 with the
shuffled pool truncated by `slice(0, params.limit)`.  `shuffled` stands for
the result of the random `sort` comparator, an arbitrary permutation of the
pool, and is passed explicitly. -/
def fallbackResult (searchItems : List (Option RawPlaylist))
    (fetched : List (Option (List (Option RawTrack))))
    (shuffled : List Track) (limit : Int) : RecResult :=
  if (playlistsToCheck searchItems).isEmpty then .noPlaylists
  else if (recommendationPool searchItems fetched).isEmpty then .noTracks
  else .success (jsSliceTo shuffled limit)

/-- C6: when the search yields no valid playlist, or no track survives
filtering and deduplication, the fallback answers one of the two 404
outcomes — never a success (in particular never an empty success) and never
the transport-error path. -/
theorem fallback_404_on_empty :
    ∀ items fetched shuffled limit,
      (playlistsToCheck items = [] ∨ recommendationPool items fetched = []) →
      (fallbackResult items fetched shuffled limit = RecResult.noPlaylists ∨
       fallbackResult items fetched shuffled limit = RecResult.noTracks) ∧
      statusOf (fallbackResult items fetched shuffled limit) = 404 ∧
      (∀ ts, fallbackResult items fetched shuffled limit ≠ RecResult.success ts) ∧
      (∀ st, fallbackResult items fetched shuffled limit ≠ RecResult.upstreamError st) := by
  intro items fetched shuffled limit h
  unfold fallbackResult
  by_cases h1 : (playlistsToCheck items).isEmpty
  · rw [if_pos h1]
    exact ⟨Or.inl rfl, rfl, fun ts hc => RecResult.noConfusion hc,
      fun st hc => RecResult.noConfusion hc⟩
  · have h2 : (recommendationPool items fetched).isEmpty := by
      rcases h with h | h
      · exact absurd (by simp [h]) h1
      · simp [h]
    rw [if_neg h1, if_pos h2]
    exact ⟨Or.inr rfl, rfl, fun ts hc => RecResult.noConfusion hc,
      fun st hc => RecResult.noConfusion hc⟩

/-- Witness for C6 on an empty search response. -/
theorem fallback_404_on_empty_witness :
    (playlistsToCheck [] = [] ∨ recommendationPool [] [] = []) ∧
    (fallbackResult [] [] [] 20 = RecResult.noPlaylists ∨
     fallbackResult [] [] [] 20 = RecResult.noTracks) :=
  ⟨Or.inl rfl, (fallback_404_on_empty [] [] [] 20 (Or.inl rfl)).1⟩

lemma uniqueTracks_ids_nodup (l : List Track) :
    ((uniqueTracks l).map Track.id).Nodup := by
  unfold uniqueTracks
  rw [List.map_map]
  set F := l.enum.filter fun p => p.1 == l.findIdx fun t => t.id == p.2.id with hF
  have hsubl : List.Sublist F l.enum := List.filter_sublist _
  have hfst : (F.map Prod.fst).Nodup := by
    have henum : (l.enum.map Prod.fst).Nodup := by
      rw [List.enum_map_fst]
      exact List.nodup_range _
    exact henum.sublist (hsubl.map Prod.fst)
  have hFnd : F.Nodup := List.Nodup.of_map Prod.fst hfst
  apply List.Nodup.map_on _ hFnd
  intro x hx y hy hid
  have hxf : x.1 = l.findIdx fun t => t.id == x.2.id := by
    have := (List.mem_filter.mp hx).2
    simpa using this
  have hyf : y.1 = l.findIdx fun t => t.id == y.2.id := by
    have := (List.mem_filter.mp hy).2
    simpa using this
  have hxy1 : x.1 = y.1 := by
    rw [hxf, hyf, show x.2.id = y.2.id from hid]
  exact List.inj_on_of_nodup_map hfst hx hy hxy1

/-- One valid playlist whose fetch returned ten distinct tracks. -/
def cxPlaylists : List (Option RawPlaylist) :=
  [some { id := some (str "p1"), name := some (str "Chill Mix"), hasOwner := true }]

/-- Ten raw tracks with distinct one-character ids. -/
def cxTracks10 : List (Option RawTrack) :=
  (List.range 10).map fun k => some { id := some [48 + k] }

/-- Fetch result for the single playlist. -/
def cxFetched : List (Option (List (Option RawTrack))) := [some cxTracks10]

/-- The deduplicated pool of the concrete run: the ten tracks. -/
def cxPool : List Track := recommendationPool cxPlaylists cxFetched

/-- Counterexample to C7: with `limit=-5` the effective limit is -5 (there
is no lower clamp), and on a ten-track pool `slice(0, -5)` returns the
first five tracks — a successful response whose length, 5, exceeds the
effective limit. -/
theorem fallback_limit_counterexample :
    effectiveLimit (some (str "-5")) = -5 ∧
    cxPool.length = 10 ∧
    fallbackResult cxPlaylists cxFetched cxPool (-5) =
      RecResult.success (cxPool.take 5) ∧
    (cxPool.take 5).length = 5 ∧
    ¬ ((5 : Int) ≤ -5) := by
  decide

/-- Two valid playlists of ten tracks each, sharing exactly three ids
(55, 56, 57). -/
def cxTwoPlaylists : List (Option RawPlaylist) :=
  [some { id := some (str "p1"), name := some (str "A"), hasOwner := true },
   some { id := some (str "p2"), name := some (str "B"), hasOwner := true }]

/-- Their fetched tracks: ids 48–57 and 55–64. -/
def cxTwoFetched : List (Option (List (Option RawTrack))) :=
  [some ((List.range 10).map fun k => some { id := some [48 + k] }),
   some ((List.range 10).map fun k => some { id := some [55 + k] })]

/-- C7 (amended): deduplication happens before the shuffle and the
truncation, so every successful fallback response has pairwise-distinct
track ids, and — whenever the effective limit is non-negative (which a
positive, absent or non-numeric `limit` parameter always produces) — at
most `limit` tracks; for two ten-track playlists sharing three ids the
deduplicated pool has exactly 17 tracks.  (A negative limit reaches the
truncation unclamped, see the counterexample.) -/
theorem fallback_dedup_and_truncation :
    (∀ items fetched shuffled limit ts,
      shuffled.Perm (recommendationPool items fetched) →
      fallbackResult items fetched shuffled limit = RecResult.success ts →
      ((ts.map Track.id).Nodup ∧ (0 ≤ limit → (ts.length : Int) ≤ limit))) ∧
    (recommendationPool cxTwoPlaylists cxTwoFetched).length = 17 := by
  constructor
  · intro items fetched shuffled limit ts hperm hres
    unfold fallbackResult at hres
    by_cases h1 : (playlistsToCheck items).isEmpty
    · rw [if_pos h1] at hres
      exact absurd hres (fun hc => RecResult.noConfusion hc)
    · rw [if_neg h1] at hres
      by_cases h2 : (recommendationPool items fetched).isEmpty
      · rw [if_pos h2] at hres
        exact absurd hres (fun hc => RecResult.noConfusion hc)
      · rw [if_neg h2] at hres
        have hts : jsSliceTo shuffled limit = ts := by
          injection hres
        subst hts
        constructor
        · have hpool : ((recommendationPool items fetched).map Track.id).Nodup :=
            uniqueTracks_ids_nodup _
          have hsh : (shuffled.map Track.id).Nodup :=
            ((hperm.map Track.id).nodup_iff).mpr hpool
          have hsub : List.Sublist (jsSliceTo shuffled limit) shuffled := by
            unfold jsSliceTo
            split_ifs <;> exact List.take_sublist _ _
          exact hsh.sublist (hsub.map Track.id)
        · intro hl
          unfold jsSliceTo
          rw [if_neg (by omega : ¬ limit < 0)]
          have hlen : (shuffled.take limit.toNat).length ≤ limit.toNat := by
            rw [List.length_take]
            exact Nat.min_le_left _ _
          calc ((shuffled.take limit.toNat).length : Int)
              ≤ (limit.toNat : Int) := by exact_mod_cast hlen
            _ = limit := Int.toNat_of_nonneg hl
  · decide

/-- Witness for C7 (amended) on the concrete ten-track pool with the
identity shuffle and `limit=20`. -/
theorem fallback_dedup_and_truncation_witness :
    (cxPool.map Track.id).Nodup ∧
      (0 ≤ (20 : Int) → ((cxPool.take (20 : Int).toNat).length : Int) ≤ 20) := by
  have h := fallback_dedup_and_truncation.1 cxPlaylists cxFetched cxPool 20
    (jsSliceTo cxPool 20) (List.Perm.refl _) rfl
  have hslice : jsSliceTo cxPool 20 = cxPool.take (20 : Int).toNat := by
    unfold jsSliceTo
    rw [if_neg (by omega : ¬ (20 : Int) < 0)]
  constructor
  · have := h.1
    rw [hslice] at this
    have htake : cxPool.take (20 : Int).toNat = cxPool := by decide
    rwa [htake] at this
  · intro h0
    have := h.2 h0
    rwa [hslice] at this
